import Mathlib

/-!
Verification of the crimson ProtocolV2 connection state-machine header
(src/crimson/net/ProtocolV2.h) against its natural-language specification.

The header file is the available source: inline member bodies
(gated_execute, Timer::cancel, wait_exit_io, get_state_name) and the
in-class member initializers are embedded directly from it.  Routines whose
bodies live in the missing ProtocolV2.cc (handle_existing_connection,
server_reconnect, send_reset, reset_session, fault, do_close) are modelled
from the specification text, as marked in their doc comments.

Machine integers: the uint64_t counters and cookies are modelled as Nat
(the protocol never brings them near 2^64; the spec treats them as abstract
monotone counters).  The C++ double last_dur_ is modelled as Rat, exact for
the only value the claims mention (0.0).
-/

namespace CrimsonNet

/-- The ten-state enum state_t from ProtocolV2.h lines 68-79,
in declaration order (NONE = 0, ..., CLOSING = 9). -/
inductive state_t where
  | NONE
  | ACCEPTING
  | SERVER_WAIT
  | ESTABLISHING
  | CONNECTING
  | READY
  | STANDBY
  | WAIT
  | REPLACING
  | CLOSING
  deriving DecidableEq, Repr

/-- The static_cast of a state_t value to its underlying integer,
following the declaration order of the enum. -/
def state_t.toIndex : state_t → Nat
  | .NONE => 0
  | .ACCEPTING => 1
  | .SERVER_WAIT => 2
  | .ESTABLISHING => 3
  | .CONNECTING => 4
  | .READY => 5
  | .STANDBY => 6
  | .WAIT => 7
  | .REPLACING => 8
  | .CLOSING => 9

/-- The statenames table local to get_state_name (ProtocolV2.h lines 82-91). -/
def statenames : List String :=
  ["NONE",
   "ACCEPTING",
   "SERVER_WAIT",
   "ESTABLISHING",
   "CONNECTING",
   "READY",
   "STANDBY",
   "WAIT",
   "REPLACING",
   "CLOSING"]

/-- get_state_name (ProtocolV2.h lines 81-93): index the statenames table by
the integer value of the state.  The C++ indexing is unchecked; the model
uses getD so that out-of-bounds would surface as the empty string. -/
def get_state_name (state : state_t) : String :=
  statenames.getD state.toIndex ""

/-- The string spelling of each enumerator of state_t, written from the enum
declaration itself (the specification side of claim C9, to be compared with
get_state_name which reads the table). -/
def enumeratorSpelling : state_t → String
  | .NONE => "NONE"
  | .ACCEPTING => "ACCEPTING"
  | .SERVER_WAIT => "SERVER_WAIT"
  | .ESTABLISHING => "ESTABLISHING"
  | .CONNECTING => "CONNECTING"
  | .READY => "READY"
  | .STANDBY => "STANDBY"
  | .WAIT => "WAIT"
  | .REPLACING => "REPLACING"
  | .CLOSING => "CLOSING"

/-- seastar::abort_source as far as the timer uses it: a flag recording
whether request_abort has been called. -/
structure AbortSource where
  aborted : Bool
  deriving DecidableEq, Repr

/-- ProtocolV2::Timer (ProtocolV2.h lines 252-268): the recorded last delay
duration (a C++ double, modelled as Rat) and the optional abort source of an
in-progress backoff sleep. -/
structure Timer where
  last_dur_ : Rat
  as : Option AbortSource
  deriving DecidableEq, Repr

/-- Timer::last_dur (ProtocolV2.h line 258). -/
def Timer.last_dur (t : Timer) : Rat := t.last_dur_

/-- Modelled from the spec: Timer::backoff (declared ProtocolV2.h line 259,
body in the missing .cc) starts a cancellable delay, recording its duration
and installing a fresh, not-yet-aborted abort source for the sleep. -/
def Timer.backoff_start (_t : Timer) (seconds : Rat) : Timer :=
  { last_dur_ := seconds, as := some { aborted := false } }

/-- Timer::cancel (ProtocolV2.h lines 260-266): last_dur_ is reset to 0.0;
if an abort source is present, request_abort is called on it and the timer
drops its reference.  The second component is the abort source as still seen
by the sleeping backoff task after the call (none when no delay was in
progress). -/
def Timer.cancel (t : Timer) : Timer × Option AbortSource :=
  ({ last_dur_ := 0, as := none },
   t.as.map (fun a => { a with aborted := true }))

/-- A seastar future, shallowly: an identity (so that moving a future into
background dispatch is observable) and whether it is available (resolved). -/
structure Fut where
  id : Nat
  available : Bool
  deriving DecidableEq, Repr

/-- seastar::now(): an immediately available future. -/
def Fut.now : Fut := { id := 0, available := true }

/-- seastar::shared_promise as used through exit_io: whether it has been
resolved; get_shared_future yields a future available exactly when the
promise is resolved. -/
structure SharedPromise where
  resolved : Bool
  deriving DecidableEq, Repr

/-- The ProtocolV2 engine state: the data members of ProtocolV2
(ProtocolV2.h lines 211-268).  frame_assembler and auth_meta are opaque
references, modelled by an optional identity.  gate_background records the
identities of futures dispatched into the Gated gate's background (line 229);
next_fut_id generates fresh future identities.  fa_releases is an observation
counter of Frame Assembler teardown events, used to state the no-double-free
property of do_close. -/
structure Engine where
  has_socket : Bool
  is_socket_valid : Bool
  frame_assembler : Option Nat
  exit_io : Option SharedPromise
  auth_meta : Option Nat
  closed : Bool
  state : state_t
  peer_supported_features : Nat
  client_cookie : Nat
  server_cookie : Nat
  global_seq : Nat
  peer_global_seq : Nat
  connect_seq : Nat
  execution_done : Fut
  gate_background : List Nat
  next_fut_id : Nat
  fa_releases : Nat
  protocol_timer : Timer
  deriving DecidableEq, Repr

/-- The in-class member initializers of ProtocolV2 (ProtocolV2.h lines
211-268): has_socket = false, is_socket_valid = false, null frame assembler,
exit_io disengaged, null auth_meta, closed = false, state = NONE, all
counters 0, execution_done = seastar::now(), an empty gate and a timer with
last_dur_ = 0.0 and no abort source. -/
def Engine.init : Engine :=
  { has_socket := false
    is_socket_valid := false
    frame_assembler := none
    exit_io := none
    auth_meta := none
    closed := false
    state := state_t.NONE
    peer_supported_features := 0
    client_cookie := 0
    server_cookie := 0
    global_seq := 0
    peer_global_seq := 0
    connect_seq := 0
    execution_done := Fut.now
    gate_background := []
    next_fut_id := 1
    fa_releases := 0
    protocol_timer := { last_dur_ := 0, as := none } }

/-- wait_exit_io (ProtocolV2.h lines 60-66): if exit_io holds a value,
return its shared future, otherwise return seastar::now(). -/
def Engine.wait_exit_io (e : Engine) : Fut :=
  match e.exit_io with
  | some p => { id := 0, available := p.resolved }
  | none => Fut.now

/-- The next_step signals a server-side handshake routine can produce
(next_step_t, ProtocolV2.h lines 127-131), refined with the reply that
reconnection processing sends: accept (reuse_connection), RETRY carrying a
connect_seq, RESET (full or partial), or WAIT. -/
inductive ReconnectReply where
  | accept (connect_seq : Nat)
  | retry (connect_seq : Nat)
  | reset (full : Bool)
  deriving DecidableEq, Repr

/-- One session incarnation as known to the passive side: the
(client_cookie, server_cookie) identity and the stored connect_seq. -/
structure Session where
  client_cookie : Nat
  server_cookie : Nat
  connect_seq : Nat
  deriving DecidableEq, Repr

/-- The fields of an incoming reconnect frame that reconnection processing
reads: the claimed session identity and the attempt's connect_seq. -/
structure ReconnectAttempt where
  client_cookie : Nat
  server_cookie : Nat
  connect_seq : Nat
  deriving DecidableEq, Repr

/-- Modelled from the spec: server_reconnect (declared ProtocolV2.h line 166,
body in the missing .cc).  The passive side holds at most one known session
incarnation (none after a restart or eviction).  A reconnect whose cookie
pair is unknown is answered RESET (full) — the client must fall back to a
fresh full connection.  Otherwise the incoming connect_seq is compared to
the stored one: incoming less than or equal to stored is answered RETRY
carrying the stored value with no state change; incoming = stored + 1 is
accepted and the stored connect_seq is bumped to the incoming value. -/
def server_reconnect (known : Option Session) (rc : ReconnectAttempt) :
    ReconnectReply × Option Session :=
  match known with
  | none => (ReconnectReply.reset true, none)
  | some s =>
    if rc.client_cookie = s.client_cookie ∧ rc.server_cookie = s.server_cookie then
      if rc.connect_seq ≤ s.connect_seq then
        (ReconnectReply.retry s.connect_seq, some s)
      else
        (ReconnectReply.accept rc.connect_seq,
         some { s with connect_seq := rc.connect_seq })
    else
      (ReconnectReply.reset true, none)

/-- Modelled from the spec: reset_session (declared ProtocolV2.h line 123,
body in the missing .cc).  A full reset discards the session identity
(cookies and connect_seq cleared) and the auth context; the full/partial
distinction otherwise governs pending-message loss, which is outside this
model, so a partial reset leaves the modelled fields unchanged. -/
def reset_session (e : Engine) (is_full : Bool) : Engine :=
  if is_full then
    { e with
      client_cookie := 0
      server_cookie := 0
      connect_seq := 0
      auth_meta := none }
  else
    e

/-- Whether the active side would attempt a session reconnect rather than a
fresh full connection: it reconnects exactly when it still holds an
established session identity (a nonzero server_cookie issued by the peer). -/
def uses_reconnect (e : Engine) : Bool :=
  decide (e.server_cookie ≠ 0)

/-- The outcome of racing resolution at the passive side: replace (the
incoming attempt wins and the existing engine hands over its session, via
reuse_connection) or wait (the incoming attempt loses and is answered with a
WAIT response, via send_wait). -/
inductive RaceOutcome where
  | replace
  | wait
  deriving DecidableEq, Repr

/-- A competing connection attempt as seen by racing resolution: its
global_seq and its deterministic tie-break key (the client_cookie for full
attempts, the connect_seq for reconnect attempts). -/
structure RaceAttempt where
  global_seq : Nat
  tiebreak : Nat
  deriving DecidableEq, Repr

/-- Modelled from the spec: handle_existing_connection (declared
ProtocolV2.h line 159, body in the missing .cc).  existing carries the
connection's last known peer global_seq and the peer's tie-break key;
incoming is the competing new attempt.  A strictly greater incoming
global_seq wins (replace); strictly smaller loses (wait); on equal
global_seq the winner is the attempt with the greater tie-break key, a
deterministic symmetric comparison, and an attempt that does not beat the
existing one is answered WAIT. -/
def handle_existing_connection (existing incoming : RaceAttempt) : RaceOutcome :=
  if existing.global_seq < incoming.global_seq then
    RaceOutcome.replace
  else if incoming.global_seq < existing.global_seq then
    RaceOutcome.wait
  else if existing.tiebreak < incoming.tiebreak then
    RaceOutcome.replace
  else
    RaceOutcome.wait

/-- The winner of a race between two competing attempts, as computed by the
side holding b when attempt a arrives: a wins exactly when
handle_existing_connection would replace b with a. -/
def race_winner (a b : RaceAttempt) : RaceAttempt :=
  if handle_existing_connection b a = RaceOutcome.replace then a else b

/-- Modelled from the spec: fault (declared ProtocolV2.h lines 119-121, body
in the missing .cc).  fault is given the state the caller expected to still
be in; a call whose expected state differs from the current state is a stale
fault from superseded work and is ignored.  A current fault during the
handshake states (CONNECTING, ACCEPTING, ESTABLISHING) transitions to WAIT
for backoff and retry; a fault in READY defers the session to STANDBY; in
the remaining states the fault changes no modelled state. -/
def fault (e : Engine) (expected_state : state_t) : Engine :=
  if e.state ≠ expected_state then
    e
  else
    match e.state with
    | state_t.CONNECTING => { e with state := state_t.WAIT }
    | state_t.ACCEPTING => { e with state := state_t.WAIT }
    | state_t.ESTABLISHING => { e with state := state_t.WAIT }
    | state_t.READY => { e with state := state_t.STANDBY }
    | _ => e

/-- Modelled from the spec: do_close (declared ProtocolV2.h lines 206-209,
body in the missing .cc).  do_close is reentrant: on an engine already
closed it is a no-op; otherwise it marks the engine closed, enters the
terminal CLOSING state, cancels the protocol timer, invalidates the socket
and releases the Frame Assembler exactly once (fa_releases counts teardown
events). -/
def do_close (e : Engine) : Engine :=
  if e.closed then
    e
  else
    { e with
      closed := true
      state := state_t.CLOSING
      is_socket_valid := false
      protocol_timer := (e.protocol_timer.cancel).1
      frame_assembler := none
      fa_releases := e.fa_releases + (if e.frame_assembler.isSome then 1 else 0) }

/-- gated_execute (ProtocolV2.h lines 97-117), embedded over the future
model: the whole body is dispatched into the gate in the background (the
caller is not blocked).  If the current execution_done future is not yet
available, it is moved into a background dispatch of its own (drained, not
dropped); then a fresh promise's future becomes the new execution_done,
unavailable until the newly invoked execution completes. -/
def gated_execute (e : Engine) : Engine :=
  let e1 :=
    if e.execution_done.available then
      e
    else
      { e with gate_background := e.execution_done.id :: e.gate_background }
  { e1 with
    execution_done := { id := e1.next_fut_id, available := false }
    next_fut_id := e1.next_fut_id + 1 }

/-- Resolution of the promise paired with the current execution_done future,
fired by the finally-block of gated_execute when the invoked execution
completes. -/
def execution_complete (e : Engine) : Engine :=
  { e with execution_done := { e.execution_done with available := true } }

/-- The state-machine operations of the engine, each a driver or trigger of
the protocol (declared in ProtocolV2.h; transition effects modelled from the
spec, sections 4.1 and 4.6). -/
inductive Op where
  | start_connect
  | start_accept
  | op_fault (expected_state : state_t)
  | close
  | wait_received
  | establish
  | server_stall
  | replace_trigger
  | to_ready
  | to_standby
  | retry_connect
  deriving DecidableEq, Repr

/-- Modelled from the spec: one transition step of the engine.
start_connect and start_accept drive a fresh (NONE) engine into CONNECTING
and ACCEPTING, bumping global_seq on the new attempt; wait_received is a
WAIT reply during CONNECTING, sending the loser to WAIT with backoff;
establish moves the passive side past auth into ESTABLISHING; server_stall
puts the passive side into SERVER_WAIT; replace_trigger (trigger_replacing)
hands an existing non-closing session its new transport; to_ready completes
a handshake or replacement into READY; to_standby defers a session that lost
a race; retry_connect re-drives a waiting engine into CONNECTING; op_fault
and close are the reentrant fault and do_close entry points. -/
def step (e : Engine) (op : Op) : Engine :=
  match op with
  | Op.start_connect =>
    if e.state = state_t.NONE then
      { e with state := state_t.CONNECTING, global_seq := e.global_seq + 1 }
    else e
  | Op.start_accept =>
    if e.state = state_t.NONE then
      { e with state := state_t.ACCEPTING, global_seq := e.global_seq + 1 }
    else e
  | Op.op_fault expected_state => fault e expected_state
  | Op.close => do_close e
  | Op.wait_received =>
    if e.state = state_t.CONNECTING then
      { e with state := state_t.WAIT }
    else e
  | Op.establish =>
    if e.state = state_t.ACCEPTING then
      { e with state := state_t.ESTABLISHING }
    else e
  | Op.server_stall =>
    if e.state = state_t.ACCEPTING then
      { e with state := state_t.SERVER_WAIT }
    else e
  | Op.replace_trigger =>
    if e.closed = false ∧ e.state ≠ state_t.CLOSING ∧ e.state ≠ state_t.NONE then
      { e with state := state_t.REPLACING }
    else e
  | Op.to_ready =>
    if e.state = state_t.CONNECTING ∨ e.state = state_t.ESTABLISHING ∨
        e.state = state_t.REPLACING then
      { e with state := state_t.READY, connect_seq := e.connect_seq + 1 }
    else e
  | Op.to_standby =>
    if e.state = state_t.READY ∨ e.state = state_t.CONNECTING ∨
        e.state = state_t.WAIT then
      { e with state := state_t.STANDBY }
    else e
  | Op.retry_connect =>
    if e.state = state_t.WAIT ∨ e.state = state_t.STANDBY then
      { e with state := state_t.CONNECTING, global_seq := e.global_seq + 1 }
    else e

/-- Running a sequence of operations on an engine. -/
def run (e : Engine) (ops : List Op) : Engine :=
  ops.foldl step e

/-- C9: for every one of the ten declared state_t values, get_state_name
indexes the statenames table within bounds and returns exactly the string
spelling of that state's enumerator, in the order of the enum declaration
(NONE = 0 maps to "NONE", ..., CLOSING maps to "CLOSING"). -/
theorem C9_get_state_name_correct :
    ∀ s : state_t,
      s.toIndex < statenames.length ∧
      get_state_name s = enumeratorSpelling s := by
  intro s
  cases s <;> exact ⟨by decide, rfl⟩

/-- C10: a freshly constructed engine starts with state NONE; client_cookie,
server_cookie, global_seq, peer_global_seq, connect_seq and
peer_supported_features all 0; closed, has_socket and is_socket_valid all
false; exit_io unset; execution_done already resolved; and wait_exit_io
called before any I/O handoff returns an immediately-ready future. -/
theorem C10_fresh_engine_defaults :
    Engine.init.state = state_t.NONE ∧
    Engine.init.client_cookie = 0 ∧
    Engine.init.server_cookie = 0 ∧
    Engine.init.global_seq = 0 ∧
    Engine.init.peer_global_seq = 0 ∧
    Engine.init.connect_seq = 0 ∧
    Engine.init.peer_supported_features = 0 ∧
    Engine.init.closed = false ∧
    Engine.init.has_socket = false ∧
    Engine.init.is_socket_valid = false ∧
    Engine.init.exit_io = none ∧
    Engine.init.execution_done.available = true ∧
    Engine.init.wait_exit_io.available = true := by
  refine ⟨rfl, rfl, rfl, rfl, rfl, rfl, rfl, rfl, rfl, rfl, rfl, rfl, rfl⟩

/-- C8: cancelling the backoff timer aborts any in-progress delay (the abort
source the sleeping task holds has its abort requested) and resets the
recorded last delay duration to zero, so after cancel the timer's last_dur
returns 0 and no pending backoff remains (the abort source slot is
cleared). -/
theorem C8_timer_cancel_aborts_and_resets (t : Timer) (a : AbortSource)
    (h : t.as = some a) :
    (t.cancel).1.last_dur = 0 ∧
    (t.cancel).1.as = none ∧
    (t.cancel).2 = some { a with aborted := true } := by
  refine ⟨rfl, rfl, ?_⟩
  simp [Timer.cancel, h]

theorem C8_timer_cancel_aborts_and_resets_witness :
    ((Timer.mk 5 (some (AbortSource.mk false))).as = some (AbortSource.mk false)) ∧
    ((Timer.mk 5 (some (AbortSource.mk false))).cancel.1.last_dur = 0 ∧
     (Timer.mk 5 (some (AbortSource.mk false))).cancel.1.as = none ∧
     (Timer.mk 5 (some (AbortSource.mk false))).cancel.2 =
       some { AbortSource.mk false with aborted := true }) :=
  ⟨rfl, C8_timer_cancel_aborts_and_resets
    (Timer.mk 5 (some (AbortSource.mk false))) (AbortSource.mk false) rfl⟩

/-- C4: calling fault with an expected-state argument that differs from the
engine's current state (a stale fault from superseded work) leaves the
engine's state field unchanged. -/
theorem C4_stale_fault_leaves_state (e : Engine) (expected_state : state_t)
    (h : expected_state ≠ e.state) :
    (fault e expected_state).state = e.state := by
  have h2 : e.state ≠ expected_state := fun hh => h hh.symm
  simp [fault, h2]

theorem C4_stale_fault_leaves_state_witness :
    (state_t.CONNECTING ≠ Engine.init.state) ∧
    (fault Engine.init state_t.CONNECTING).state = Engine.init.state :=
  ⟨by decide, C4_stale_fault_leaves_state Engine.init state_t.CONNECTING (by decide)⟩

/-- C7: whenever gated_execute is invoked while the previous execution's
completion future is not yet resolved, that future is abandoned into
background dispatch (its identity is drained into the gate's background, not
dropped), and the new execution proceeds as the sole active driver: the
tracked execution_done becomes a fresh unresolved future distinct from the
abandoned one. -/
theorem C7_gate_single_active_driver (e : Engine)
    (h : e.execution_done.available = false) :
    (gated_execute e).execution_done.id = e.next_fut_id ∧
    (gated_execute e).execution_done.available = false ∧
    e.execution_done.id ∈ (gated_execute e).gate_background ∧
    (gated_execute e).next_fut_id = e.next_fut_id + 1 ∧
    (e.execution_done.id ≠ e.next_fut_id →
      (gated_execute e).execution_done.id ≠ e.execution_done.id) := by
  refine ⟨?_, ?_, ?_, ?_, ?_⟩ <;> simp [gated_execute, h]
  intro hne hEq
  exact hne hEq.symm

theorem C7_gate_single_active_driver_witness :
    ((gated_execute Engine.init).execution_done.available = false) ∧
    ((gated_execute (gated_execute Engine.init)).execution_done.id =
        (gated_execute Engine.init).next_fut_id ∧
     (gated_execute (gated_execute Engine.init)).execution_done.available = false ∧
     (gated_execute Engine.init).execution_done.id ∈
        (gated_execute (gated_execute Engine.init)).gate_background ∧
     (gated_execute (gated_execute Engine.init)).next_fut_id =
        (gated_execute Engine.init).next_fut_id + 1 ∧
     ((gated_execute Engine.init).execution_done.id ≠
         (gated_execute Engine.init).next_fut_id →
       (gated_execute (gated_execute Engine.init)).execution_done.id ≠
         (gated_execute Engine.init).execution_done.id)) :=
  ⟨by decide, C7_gate_single_active_driver (gated_execute Engine.init) (by decide)⟩

/-- Helper: do_close on a closed engine is the identity. -/
lemma do_close_of_closed (e : Engine) (h : e.closed = true) : do_close e = e := by
  simp [do_close, h]

/-- Helper: the result of do_close is always closed. -/
lemma do_close_closed (e : Engine) : (do_close e).closed = true := by
  by_cases h : e.closed = true
  · simp [do_close, h]
  · simp only [Bool.not_eq_true] at h
    simp [do_close, h]

/-- Helper: do_close applied twice equals do_close applied once. -/
lemma do_close_do_close (e : Engine) : do_close (do_close e) = do_close e :=
  do_close_of_closed (do_close e) (do_close_closed e)

/-- C5: do_close is idempotent: on an already-closed (CLOSING) engine it is
a no-op, and any positive number of do_close calls converges to the single
do_close outcome — from a not-yet-closed engine the result is in CLOSING
with the Frame Assembler torn down exactly once (the release counter grows
by one when an assembler was held, and never more). -/
theorem C5_do_close_idempotent (e : Engine) (n : Nat) (hn : 1 ≤ n) :
    do_close^[n] e = do_close e ∧
    (e.closed = true → do_close e = e) ∧
    (e.closed = false →
      (do_close e).state = state_t.CLOSING ∧
      (do_close e).frame_assembler = none ∧
      (do_close e).fa_releases =
        e.fa_releases + (if e.frame_assembler.isSome then 1 else 0)) := by
  refine ⟨?_, ?_, ?_⟩
  · obtain ⟨m, rfl⟩ := Nat.exists_eq_add_of_le hn
    rw [Nat.add_comm, Function.iterate_add_apply, Function.iterate_one]
    exact Function.iterate_fixed (do_close_do_close e) m
  · intro h
    simp [do_close, h]
  · intro h
    refine ⟨?_, ?_, ?_⟩ <;> simp [do_close, h]

theorem C5_do_close_idempotent_witness :
    1 ≤ 2 ∧
    (do_close^[2] Engine.init = do_close Engine.init ∧
     (Engine.init.closed = true → do_close Engine.init = Engine.init) ∧
     (Engine.init.closed = false →
       (do_close Engine.init).state = state_t.CLOSING ∧
       (do_close Engine.init).frame_assembler = none ∧
       (do_close Engine.init).fa_releases =
         Engine.init.fa_releases +
           (if Engine.init.frame_assembler.isSome then 1 else 0))) :=
  ⟨by decide, C5_do_close_idempotent Engine.init 2 (by decide)⟩

/-- Helper: every single operation preserves the CLOSING state. -/
lemma step_preserves_closing (e : Engine) (op : Op)
    (h : e.state = state_t.CLOSING) :
    (step e op).state = state_t.CLOSING := by
  cases op <;>
    simp only [step, fault, do_close, h] <;>
    first
      | rfl
      | (split <;> simp_all)

/-- C6: CLOSING is terminal: for every sequence of operations on an engine,
once the engine's state is CLOSING no subsequent operation changes it to
any other value. -/
theorem C6_closing_terminal (e : Engine) (ops : List Op)
    (h : e.state = state_t.CLOSING) :
    (run e ops).state = state_t.CLOSING := by
  induction ops generalizing e with
  | nil => exact h
  | cons op rest ih =>
    have : run e (op :: rest) = run (step e op) rest := rfl
    rw [this]
    exact ih (step e op) (step_preserves_closing e op h)

theorem C6_closing_terminal_witness :
    ((do_close Engine.init).state = state_t.CLOSING) ∧
    (run (do_close Engine.init)
        [Op.start_connect, Op.op_fault state_t.CLOSING, Op.replace_trigger,
         Op.retry_connect, Op.close]).state = state_t.CLOSING :=
  ⟨by decide,
   C6_closing_terminal (do_close Engine.init)
     [Op.start_connect, Op.op_fault state_t.CLOSING, Op.replace_trigger,
      Op.retry_connect, Op.close]
     (by decide)⟩

/-- C1: connection-racing resolution is a deterministic function of the two
sides' sequence numbers and tie-break keys: the attempt with strictly
greater global_seq wins and the loser's attempt is answered WAIT while the
winner's attempt replaces the existing connection; on equal global_seq the
winner is decided by the deterministic comparison of the tie-break keys
(client_cookie, or connect_seq for reconnects); both ends compute the same
winner regardless of which side evaluates first. -/
theorem C1_racing_deterministic (a b : RaceAttempt) (hne : a ≠ b) :
    race_winner a b = race_winner b a ∧
    (b.global_seq < a.global_seq →
      race_winner a b = a ∧
      handle_existing_connection a b = RaceOutcome.wait ∧
      handle_existing_connection b a = RaceOutcome.replace) ∧
    (a.global_seq = b.global_seq → a.tiebreak < b.tiebreak →
      race_winner a b = b ∧ race_winner b a = b) := by
  obtain ⟨ga, ta⟩ := a
  obtain ⟨gb, tb⟩ := b
  have hne2 : ¬(ga = gb ∧ ta = tb) := fun ⟨h1, h2⟩ => hne (by rw [h1, h2])
  simp only [race_winner, handle_existing_connection]
  rcases Nat.lt_trichotomy ga gb with hg | hg | hg
  · refine ⟨?_, ?_, ?_⟩
    · simp [hg, Nat.lt_asymm hg]
    · intro hba
      exact absurd hg (Nat.lt_asymm hba)
    · intro heq
      exact absurd heq (Nat.ne_of_lt hg)
  · subst hg
    rcases Nat.lt_trichotomy ta tb with ht | ht | ht
    · refine ⟨?_, ?_, ?_⟩
      · simp [Nat.lt_irrefl, ht, Nat.lt_asymm ht]
      · intro hba
        exact absurd hba (Nat.lt_irrefl ga)
      · intro _ _
        constructor <;> simp [Nat.lt_irrefl, ht, Nat.lt_asymm ht]
    · exact absurd ⟨rfl, ht⟩ hne2
    · refine ⟨?_, ?_, ?_⟩
      · simp [Nat.lt_irrefl, ht, Nat.lt_asymm ht]
      · intro hba
        exact absurd hba (Nat.lt_irrefl ga)
      · intro _ ht2
        exact absurd ht2 (Nat.lt_asymm ht)
  · refine ⟨?_, ?_, ?_⟩
    · simp [hg, Nat.lt_asymm hg]
    · intro _
      refine ⟨?_, ?_, ?_⟩ <;> simp [hg, Nat.lt_asymm hg]
    · intro heq
      exact absurd heq.symm (Nat.ne_of_lt hg)

theorem C1_racing_deterministic_witness :
    (RaceAttempt.mk 7 0 ≠ RaceAttempt.mk 5 1) ∧
    (race_winner (RaceAttempt.mk 7 0) (RaceAttempt.mk 5 1) =
        race_winner (RaceAttempt.mk 5 1) (RaceAttempt.mk 7 0) ∧
     ((RaceAttempt.mk 5 1).global_seq < (RaceAttempt.mk 7 0).global_seq →
        race_winner (RaceAttempt.mk 7 0) (RaceAttempt.mk 5 1) = RaceAttempt.mk 7 0 ∧
        handle_existing_connection (RaceAttempt.mk 7 0) (RaceAttempt.mk 5 1) =
          RaceOutcome.wait ∧
        handle_existing_connection (RaceAttempt.mk 5 1) (RaceAttempt.mk 7 0) =
          RaceOutcome.replace) ∧
     ((RaceAttempt.mk 7 0).global_seq = (RaceAttempt.mk 5 1).global_seq →
        (RaceAttempt.mk 7 0).tiebreak < (RaceAttempt.mk 5 1).tiebreak →
        race_winner (RaceAttempt.mk 7 0) (RaceAttempt.mk 5 1) = RaceAttempt.mk 5 1 ∧
        race_winner (RaceAttempt.mk 5 1) (RaceAttempt.mk 7 0) = RaceAttempt.mk 5 1)) :=
  ⟨by decide,
   C1_racing_deterministic (RaceAttempt.mk 7 0) (RaceAttempt.mk 5 1) (by decide)⟩

/-- C2: for a reconnection attempt whose cookies match the stored session,
an incoming connect_seq equal to the stored connect_seq plus one is accepted
and the stored connect_seq is incremented by exactly 1; an incoming
connect_seq less than or equal to the stored value is answered RETRY
carrying the stored connect_seq, with the stored session unchanged and the
attempt never silently accepted. -/
theorem C2_reconnect_seq_check (s : Session) (rc : ReconnectAttempt)
    (hc : rc.client_cookie = s.client_cookie)
    (hs : rc.server_cookie = s.server_cookie) :
    (rc.connect_seq = s.connect_seq + 1 →
      (server_reconnect (some s) rc).1 = ReconnectReply.accept (s.connect_seq + 1) ∧
      (server_reconnect (some s) rc).2 =
        some { s with connect_seq := s.connect_seq + 1 }) ∧
    (rc.connect_seq ≤ s.connect_seq →
      (server_reconnect (some s) rc).1 = ReconnectReply.retry s.connect_seq ∧
      (server_reconnect (some s) rc).2 = some s ∧
      ∀ n, (server_reconnect (some s) rc).1 ≠ ReconnectReply.accept n) := by
  constructor
  · intro h
    have hnle : ¬rc.connect_seq ≤ s.connect_seq := by omega
    simp [server_reconnect, hc, hs, hnle, h]
  · intro h
    simp [server_reconnect, hc, hs, h]

theorem C2_reconnect_seq_check_witness :
    ((ReconnectAttempt.mk 1 2 4).client_cookie = (Session.mk 1 2 3).client_cookie) ∧
    ((ReconnectAttempt.mk 1 2 4).server_cookie = (Session.mk 1 2 3).server_cookie) ∧
    (((ReconnectAttempt.mk 1 2 4).connect_seq = (Session.mk 1 2 3).connect_seq + 1 →
       (server_reconnect (some (Session.mk 1 2 3)) (ReconnectAttempt.mk 1 2 4)).1 =
         ReconnectReply.accept ((Session.mk 1 2 3).connect_seq + 1) ∧
       (server_reconnect (some (Session.mk 1 2 3)) (ReconnectAttempt.mk 1 2 4)).2 =
         some { Session.mk 1 2 3 with connect_seq := (Session.mk 1 2 3).connect_seq + 1 }) ∧
     ((ReconnectAttempt.mk 1 2 4).connect_seq ≤ (Session.mk 1 2 3).connect_seq →
       (server_reconnect (some (Session.mk 1 2 3)) (ReconnectAttempt.mk 1 2 4)).1 =
         ReconnectReply.retry (Session.mk 1 2 3).connect_seq ∧
       (server_reconnect (some (Session.mk 1 2 3)) (ReconnectAttempt.mk 1 2 4)).2 =
         some (Session.mk 1 2 3) ∧
       ∀ n, (server_reconnect (some (Session.mk 1 2 3)) (ReconnectAttempt.mk 1 2 4)).1 ≠
         ReconnectReply.accept n)) :=
  ⟨rfl, rfl, C2_reconnect_seq_check (Session.mk 1 2 3) (ReconnectAttempt.mk 1 2 4) rfl rfl⟩

/-- C3: a reconnection attempt whose cookie pair is unknown to the passive
side (no known session, or mismatched cookies) is answered RESET and never
silently accepted; on a full reset the client discards its session identity
(cookies and connect_seq) and auth context, and falls back to a fresh full
connection rather than a reconnect. -/
theorem C3_unknown_cookies_reset (known : Option Session) (rc : ReconnectAttempt)
    (h : ∀ s, known = some s →
      rc.client_cookie ≠ s.client_cookie ∨ rc.server_cookie ≠ s.server_cookie) :
    (server_reconnect known rc).1 = ReconnectReply.reset true ∧
    (∀ n, (server_reconnect known rc).1 ≠ ReconnectReply.accept n) ∧
    ∀ e : Engine,
      (reset_session e true).client_cookie = 0 ∧
      (reset_session e true).server_cookie = 0 ∧
      (reset_session e true).connect_seq = 0 ∧
      (reset_session e true).auth_meta = none ∧
      uses_reconnect (reset_session e true) = false := by
  have hr : (server_reconnect known rc).1 = ReconnectReply.reset true := by
    cases known with
    | none => rfl
    | some s =>
      have hs := h s rfl
      have hcond :
          ¬(rc.client_cookie = s.client_cookie ∧ rc.server_cookie = s.server_cookie) := by
        intro hand
        rcases hs with h1 | h1
        · exact h1 hand.1
        · exact h1 hand.2
      simp [server_reconnect, hcond]
  refine ⟨hr, ?_, ?_⟩
  · intro n
    rw [hr]
    intro hcontra
    exact ReconnectReply.noConfusion hcontra
  · intro e
    refine ⟨rfl, rfl, rfl, rfl, rfl⟩

theorem C3_unknown_cookies_reset_witness :
    (∀ s : Session, (some (Session.mk 1 2 3) : Option Session) = some s →
      (ReconnectAttempt.mk 9 2 4).client_cookie ≠ s.client_cookie ∨
      (ReconnectAttempt.mk 9 2 4).server_cookie ≠ s.server_cookie) ∧
    ((server_reconnect (some (Session.mk 1 2 3)) (ReconnectAttempt.mk 9 2 4)).1 =
        ReconnectReply.reset true ∧
     (∀ n, (server_reconnect (some (Session.mk 1 2 3)) (ReconnectAttempt.mk 9 2 4)).1 ≠
        ReconnectReply.accept n) ∧
     ∀ e : Engine,
       (reset_session e true).client_cookie = 0 ∧
       (reset_session e true).server_cookie = 0 ∧
       (reset_session e true).connect_seq = 0 ∧
       (reset_session e true).auth_meta = none ∧
       uses_reconnect (reset_session e true) = false) :=
  ⟨fun s hs => by cases hs; exact Or.inl (by decide),
   C3_unknown_cookies_reset (some (Session.mk 1 2 3)) (ReconnectAttempt.mk 9 2 4)
     (fun s hs => by cases hs; exact Or.inl (by decide))⟩

end CrimsonNet
